import Mathlib

/-
Shallow embedding of the audio recorder core (src/main.py) and proofs about
its session controller, streaming worker loop, and recording artifact path.

Modelling conventions:
* Audio samples are abstracted as integers (`Sample := Int`); the claims under
  study concern ordering, concatenation and control state, never sample
  arithmetic, so the float32 payload is carried opaquely.
* The single `AudioThread` object of the program is a record
  `AudioThreadState`; the Qt worker thread's read/process loop body is the
  function `thread_step`, applied once per block while `active` is true.
* `QThread.start` on an already-running thread starts no second thread; the
  model has exactly one worker record rebound in place, which matches this.
* External effects (`sf.write`, `datetime.now`, device defaults) enter as
  explicit parameters: the write outcome is a `Bool`, the current time a
  `Timestamp`, the driver default output device a `Nat`.
* `session_via_toggle` is a ghost field recording whether the most recent
  `start_stream` call was issued by the non-hold branch of `start_recording`
  (the toggle path); the source does not store this, but the design invariant
  about Toggle State quantifies over it.
-/

set_option autoImplicit false

abbrev Sample := Int

/-- SAMPLE_RATE constant from main.py. -/
def SAMPLE_RATE : Nat := 44100

/-- CHANNELS constant from main.py. -/
def CHANNELS : Nat := 1

/-- Block size used by stream.read in the worker loop. -/
def BLOCK_SIZE : Nat := 1024

/-- Streaming mode: the `mode` string field of AudioThread. -/
inductive Mode where
  | playthrough
  | record
deriving DecidableEq

/-- State of the single AudioThread object: `active` and `recording` are set
in `__init__`; `mode`, `input_device`, `output_device` are assigned by
`start_stream` (before the first start they hold arbitrary values, which the
worker loop never reads because `active` is false). -/
structure AudioThreadState where
  active : Bool
  mode : Mode
  input_device : Nat
  output_device : Option Nat
  recording : List Sample
deriving DecidableEq

/-- AudioThread.start_stream: rebinds mode and devices, raises the `active`
flag and starts the worker (a no-op when the worker is already live). -/
def start_stream (t : AudioThreadState) (mode : Mode) (input_device : Nat)
    (output_device : Option Nat) : AudioThreadState :=
  { t with mode := mode, input_device := input_device,
           output_device := output_device, active := true }

/-- AudioThread.stop_stream: clears `active` and joins the worker thread
(`self.wait()`); after it returns no further loop iterations run. -/
def stop_stream (t : AudioThreadState) : AudioThreadState :=
  { t with active := false }

/-- One iteration of AudioThread.run's while-loop body, given the block
`blk` and the `overflowed` flag returned by `stream.read(1024)`.  The source
binds `overflowed` and never uses it.  The second component is the block
written to the output side (playthrough echo) this iteration, if any. -/
def thread_step (blk : List Sample) (overflowed : Bool)
    (t : AudioThreadState) : AudioThreadState × Option (List Sample) :=
  match t.mode with
  | Mode.playthrough => (t, some blk)
  | Mode.record => ({ t with recording := t.recording ++ blk }, none)

/-- Local timestamp as produced by datetime.now(). -/
structure Timestamp where
  year : Nat
  month : Nat
  day : Nat
  hour : Nat
  minute : Nat
  second : Nat
deriving DecidableEq

/-- Zero-pad a numeral to two digits, as strftime's %m/%d/%H/%M/%S do. -/
def pad2 (n : Nat) : String :=
  if n < 10 then "0" ++ toString n else toString n

/-- Zero-pad a numeral to four digits, as strftime's %Y does. -/
def pad4 (n : Nat) : String :=
  if n < 10 then "000" ++ toString n
  else if n < 100 then "00" ++ toString n
  else if n < 1000 then "0" ++ toString n
  else toString n

/-- strftime("%Y%m%d_%H%M%S") on a local timestamp. -/
def strftime_YmdHMS (ts : Timestamp) : String :=
  pad4 ts.year ++ pad2 ts.month ++ pad2 ts.day ++ "_" ++
    pad2 ts.hour ++ pad2 ts.minute ++ pad2 ts.second

/-- The recording artifact handed to sf.write: path, sample sequence, the
sample rate tag, and the channel count implied by the (N, 1)-shaped array. -/
structure Artifact where
  path : String
  samples : List Sample
  samplerate : Nat
  channels : Nat
deriving DecidableEq

/-- Session controller state: the AudioRecorderCore window.  `input_sel` and
`output_sel` are the currently selected combo-box device indices;
`toggle_button_text` is the toggle button label (the busy indicator);
`session_via_toggle` is the ghost provenance flag described above. -/
structure CoreState where
  thread : AudioThreadState
  toggle_recording_active : Bool
  toggle_button_text : String
  input_sel : Nat
  output_sel : Nat
  session_via_toggle : Bool
deriving DecidableEq

/-- AudioRecorderCore.start_playback: reads the selected devices and starts
the stream in playthrough mode.  No guard checks whether a session runs. -/
def start_playback (s : CoreState) : CoreState :=
  { s with thread := start_stream s.thread Mode.playthrough s.input_sel
                       (some s.output_sel),
           session_via_toggle := false }

/-- AudioRecorderCore.stop_playback. -/
def stop_playback (s : CoreState) : CoreState :=
  { s with thread := stop_stream s.thread }

/-- AudioRecorderCore.start_recording(is_hold_mode): the only guard is the
toggle reentrancy check; otherwise the buffer is cleared, the stream started
in record mode with no output device, and (when not hold mode) Toggle State
is raised and the button text set. -/
def start_recording (is_hold_mode : Bool) (s : CoreState) : CoreState :=
  if !is_hold_mode && s.toggle_recording_active then s
  else
    let t := start_stream { s.thread with recording := [] } Mode.record
               s.input_sel none
    if !is_hold_mode then
      { s with thread := t, toggle_recording_active := true,
               toggle_button_text := "Stop Recording",
               session_via_toggle := true }
    else
      { s with thread := t, session_via_toggle := false }

/-- The trailing Toggle State cleanup of stop_recording (lines 145-147). -/
def toggle_cleanup (s : CoreState) : CoreState :=
  if s.toggle_recording_active then
    { s with toggle_recording_active := false,
             toggle_button_text := "Toggle Recording" }
  else s

/-- The artifact stop_recording materialises from buffer `rec` at time
`ts`: path Path('data') / ("recording_" ++ timestamp ++ ".wav"), written at
SAMPLE_RATE with the single channel of the (N, 1) array. -/
def mk_artifact (ts : Timestamp) (rec : List Sample) : Artifact :=
  { path := "data/recording_" ++ strftime_YmdHMS ts ++ ".wav",
    samples := rec,
    samplerate := SAMPLE_RATE,
    channels := CHANNELS }

/-- AudioRecorderCore.stop_recording with the sf.write outcome made
explicit: `write_ok = false` means sf.write raises.  The source has no
try/except, so a raising write aborts the method body; the `Except.error`
value carries the controller state at the raise point (stream already
stopped, Toggle State untouched).  On the ok path the result pairs the
post-state with the artifact written, if any. -/
def stop_recording_tryWrite (write_ok : Bool) (ts : Timestamp)
    (s : CoreState) : Except CoreState (CoreState × Option Artifact) :=
  let s1 := { s with thread := stop_stream s.thread }
  if s1.thread.recording.length > 0 then
    if write_ok then
      Except.ok (toggle_cleanup s1, some (mk_artifact ts s1.thread.recording))
    else
      Except.error s1
  else
    Except.ok (toggle_cleanup s1, none)

/-- stop_recording on the normal path (sf.write succeeds whenever it is
attempted); this is the behaviour every non-failing call observes. -/
def stop_recording_run (ts : Timestamp) (s : CoreState) :
    CoreState × Option Artifact :=
  let s1 := { s with thread := stop_stream s.thread }
  if s1.thread.recording.length > 0 then
    (toggle_cleanup s1, some (mk_artifact ts s1.thread.recording))
  else
    (toggle_cleanup s1, none)

/-- AudioRecorderCore.toggle_recording: branch on the toggle flag, then
return `self.toggle_recording_active` as it stands after the branch. -/
def toggle_recording (ts : Timestamp) (s : CoreState) : CoreState × Bool :=
  let s' := if !s.toggle_recording_active then start_recording false s
            else (stop_recording_run ts s).1
  (s', s'.toggle_recording_active)

/-- AudioRecorderDBUS.ToggleRecording forwards to the core's
toggle_recording and returns its boolean. -/
def ToggleRecording (ts : Timestamp) (s : CoreState) : CoreState × Bool :=
  toggle_recording ts s

/-- The operations a caller (GUI buttons, DBus remote, worker loop) can
invoke on the controller, with their external inputs. -/
inductive Event where
  | startPlayback
  | stopPlayback
  | startRecordingHold
  | stopRecording (ts : Timestamp)
  | toggleRecording (ts : Timestamp)
  | workerStep (blk : List Sample) (overflowed : Bool)

/-- One controller transition.  A worker iteration only happens while the
loop flag is up (the while-condition of AudioThread.run). -/
def step (s : CoreState) : Event → CoreState
  | Event.startPlayback => start_playback s
  | Event.stopPlayback => stop_playback s
  | Event.startRecordingHold => start_recording true s
  | Event.stopRecording ts => (stop_recording_run ts s).1
  | Event.toggleRecording ts => (toggle_recording ts s).1
  | Event.workerStep blk ov =>
      if s.thread.active then
        { s with thread := (thread_step blk ov s.thread).1 }
      else s

/-- Initial controller state: AudioThread.__init__ sets active := False and
recording := []; mode and devices are unassigned until the first
start_stream, so their initial values here are arbitrary placeholders that
no reachable computation reads while `active` is false. -/
def init (input_sel output_sel : Nat) : CoreState :=
  { thread := { active := false, mode := Mode.playthrough,
                input_device := 0, output_device := none, recording := [] },
    toggle_recording_active := false,
    toggle_button_text := "Toggle Recording",
    input_sel := input_sel,
    output_sel := output_sel,
    session_via_toggle := false }

/-- States reachable in the program: any caller may invoke any operation at
any time (all buttons and the DBus method are always enabled). -/
inductive Reachable (inSel outSel : Nat) : CoreState → Prop where
  | init : Reachable inSel outSel (init inSel outSel)
  | step : ∀ s e, Reachable inSel outSel s → Reachable inSel outSel (step s e)

/-- States reachable under the spec's state-machine discipline: a start-type
operation is only invoked while no session is active, stop_playback only
from Playing or Idle, and toggle_recording only when it stops (toggle
active) or starts from Idle.  stop_recording and worker iterations are
unrestricted. -/
inductive DReachable (inSel outSel : Nat) : CoreState → Prop where
  | init : DReachable inSel outSel (init inSel outSel)
  | startPlayback : ∀ s, DReachable inSel outSel s →
      s.thread.active = false →
      DReachable inSel outSel (step s Event.startPlayback)
  | stopPlayback : ∀ s, DReachable inSel outSel s →
      s.thread.mode = Mode.playthrough ∨ s.thread.active = false →
      DReachable inSel outSel (step s Event.stopPlayback)
  | startRecordingHold : ∀ s, DReachable inSel outSel s →
      s.thread.active = false →
      DReachable inSel outSel (step s Event.startRecordingHold)
  | stopRecording : ∀ s ts, DReachable inSel outSel s →
      DReachable inSel outSel (step s (Event.stopRecording ts))
  | toggleRecording : ∀ s ts, DReachable inSel outSel s →
      s.toggle_recording_active = true ∨ s.thread.active = false →
      DReachable inSel outSel (step s (Event.toggleRecording ts))
  | workerStep : ∀ s blk ov, DReachable inSel outSel s →
      DReachable inSel outSel (step s (Event.workerStep blk ov))

/-- The design invariant of §3: Toggle State is true exactly when the
session is running in record mode and was started via the toggle path. -/
def toggleInv (s : CoreState) : Prop :=
  s.toggle_recording_active = true ↔
    (s.thread.active = true ∧ s.thread.mode = Mode.record ∧
     s.session_via_toggle = true)

instance (s : CoreState) : Decidable (toggleInv s) := by
  unfold toggleInv
  infer_instance

/-- Duplex stream configuration as opened by AudioThread.run's
`sd.Stream(...)` call: a duplex stream always carries both an input and an
output endpoint. -/
structure StreamConfig where
  channels : Nat
  samplerate : Nat
  input_endpoint : Nat
  output_endpoint : Nat
deriving DecidableEq

/-- Modelled from the spec: resolution of the output half of the `device`
pair by the audio backend, which is external to this repository — an unset
(None) output device resolves to the driver's current default output. -/
def resolve_output_device (dev : Option Nat) (default_out : Nat) : Nat :=
  dev.getD default_out

/-- The duplex stream AudioThread.run opens from the thread state, given
the driver's default output device. -/
def opened_stream (t : AudioThreadState) (default_out : Nat) : StreamConfig :=
  { channels := CHANNELS,
    samplerate := SAMPLE_RATE,
    input_endpoint := t.input_device,
    output_endpoint := resolve_output_device t.output_device default_out }

/-- Toggle State of the controller after stop_recording, on either exit
path (normal return or propagated write exception). -/
def result_toggle (r : Except CoreState (CoreState × Option Artifact)) :
    Bool :=
  match r with
  | Except.ok p => p.1.toggle_recording_active
  | Except.error s => s.toggle_recording_active

/-
Helper lemmas shared by the claim theorems below.
-/

lemma toggle_cleanup_toggle (s : CoreState) :
    (toggle_cleanup s).toggle_recording_active = false := by
  unfold toggle_cleanup
  split <;> simp_all

lemma toggle_cleanup_thread (s : CoreState) :
    (toggle_cleanup s).thread = s.thread := by
  unfold toggle_cleanup
  split <;> rfl

lemma toggle_cleanup_via (s : CoreState) :
    (toggle_cleanup s).session_via_toggle = s.session_via_toggle := by
  unfold toggle_cleanup
  split <;> rfl

lemma stop_recording_run_fst (ts : Timestamp) (s : CoreState) :
    (stop_recording_run ts s).1 =
      toggle_cleanup { s with thread := stop_stream s.thread } := by
  simp only [stop_recording_run]
  split <;> rfl

lemma stop_recording_tryWrite_true (ts : Timestamp) (s : CoreState) :
    stop_recording_tryWrite true ts s = Except.ok (stop_recording_run ts s) := by
  simp only [stop_recording_tryWrite, stop_recording_run, if_true]
  split <;> rfl

lemma thread_step_active (blk : List Sample) (ov : Bool) (t : AudioThreadState) :
    (thread_step blk ov t).1.active = t.active := by
  unfold thread_step
  split <;> rfl

lemma thread_step_mode (blk : List Sample) (ov : Bool) (t : AudioThreadState) :
    (thread_step blk ov t).1.mode = t.mode := by
  unfold thread_step
  split <;> simp_all

lemma step_workerStep_toggle (blk : List Sample) (ov : Bool) (s : CoreState) :
    (step s (Event.workerStep blk ov)).toggle_recording_active =
      s.toggle_recording_active := by
  simp only [step]
  split <;> rfl

lemma step_workerStep_via (blk : List Sample) (ov : Bool) (s : CoreState) :
    (step s (Event.workerStep blk ov)).session_via_toggle =
      s.session_via_toggle := by
  simp only [step]
  split <;> rfl

/-
Concrete states used by witnesses and counterexamples.
-/

/-- A fixed concrete timestamp. -/
def ts0 : Timestamp := ⟨2026, 10, 12, 3, 4, 5⟩

/-- Freshly launched controller with input device 0 and output device 1
selected. -/
def exIdle : CoreState := init 0 1

/-- Controller after one remote/interactive toggle: a toggle-initiated
record session is running. -/
def exToggleOn : CoreState := step exIdle (Event.toggleRecording ts0)

/-- The toggle session after one worker iteration reading block [1, 2]. -/
def exToggleOnBuf : CoreState :=
  step exToggleOn (Event.workerStep [1, 2] false)

/-- C9: in every iteration of the processing loop, the overflow flag
returned by the block read changes nothing: the resulting thread state and
echo output are identical with and without overflow, and the loop flag (and
hence continuation to the next iteration) is untouched by the step. -/
theorem thread_step_overflow_independent (t : AudioThreadState)
    (blk : List Sample) :
    thread_step blk true t = thread_step blk false t ∧
    (thread_step blk true t).1.active = t.active := by
  exact ⟨rfl, thread_step_active blk true t⟩

/-- C7: calling start_recording in toggle mode (is_hold_mode false) while
Toggle State is true is a complete no-op: the controller state, including
the buffer, the thread and the toggle flag, is returned unchanged, so no
session starts and no artifact can result. -/
theorem start_recording_toggle_reentrant_noop (s : CoreState)
    (h : s.toggle_recording_active = true) :
    start_recording false s = s := by
  simp [start_recording, h]

/-- Witness for C7 at the concrete toggle-active state. -/
theorem start_recording_toggle_reentrant_noop_witness :
    exToggleOn.toggle_recording_active = true ∧
    start_recording false exToggleOn = exToggleOn :=
  ⟨by decide, start_recording_toggle_reentrant_noop exToggleOn (by decide)⟩

/-- C8: stopping a record session with an empty accumulation buffer writes
nothing and raises nothing — for either outcome of the (never attempted)
file write the call returns normally with no artifact, and Toggle State
cleanup still runs, leaving the flag false. -/
theorem stop_recording_empty_no_artifact (s : CoreState) (ts : Timestamp)
    (w : Bool) (h : s.thread.recording = []) :
    stop_recording_tryWrite w ts s =
      Except.ok (toggle_cleanup { s with thread := stop_stream s.thread },
                 none) ∧
    result_toggle (stop_recording_tryWrite w ts s) = false := by
  have hlen : ({ s with thread := stop_stream s.thread } :
      CoreState).thread.recording.length = 0 := by
    simp [stop_stream, h]
  constructor
  · simp only [stop_recording_tryWrite]
    rw [if_neg]
    simp [hlen]
  · have : stop_recording_tryWrite w ts s =
        Except.ok (toggle_cleanup { s with thread := stop_stream s.thread },
                   none) := by
      simp only [stop_recording_tryWrite]
      rw [if_neg]
      simp [hlen]
    rw [this]
    simp [result_toggle, toggle_cleanup_toggle]

/-- Witness for C8: stopping the never-started fresh controller (empty
buffer), even with a failing writer, returns normally with no artifact. -/
theorem stop_recording_empty_no_artifact_witness :
    stop_recording_tryWrite false ts0 exIdle =
      Except.ok (toggle_cleanup
        { exIdle with thread := stop_stream exIdle.thread }, none) ∧
    result_toggle (stop_recording_tryWrite false ts0 exIdle) = false :=
  stop_recording_empty_no_artifact exIdle ts0 false (by decide)

/-- C2 counterexample: at the reachable state exToggleOnBuf (toggle session
running with two captured samples), a failing artifact write leaves Toggle
State true after the call — the claimed unconditional cleanup does not
happen, because stop_recording has no handler around the write. -/
theorem stop_write_failure_skips_cleanup_cex :
    Reachable 0 1 exToggleOnBuf ∧
    exToggleOnBuf.toggle_recording_active = true ∧
    result_toggle (stop_recording_tryWrite false ts0 exToggleOnBuf) = true := by
  refine ⟨Reachable.step _ _ (Reachable.step _ _ Reachable.init),
    by decide, by decide⟩

/-- C2 amended: Toggle State cleanup runs exactly when the write step does
not raise.  When sf.write succeeds (or is skipped), the flag is false
afterwards; when it raises on a non-empty buffer, the error propagates from
the point after stop_stream and Toggle State is left exactly as it was. -/
theorem stop_recording_cleanup_unless_write_raises (s : CoreState)
    (ts : Timestamp) (h : s.thread.recording ≠ []) :
    result_toggle (stop_recording_tryWrite true ts s) = false ∧
    stop_recording_tryWrite false ts s =
      Except.error { s with thread := stop_stream s.thread } ∧
    result_toggle (stop_recording_tryWrite false ts s) =
      s.toggle_recording_active := by
  have hlen : 0 < ({ s with thread := stop_stream s.thread } :
      CoreState).thread.recording.length := by
    simp [stop_stream]
    exact List.length_pos.mpr h
  refine ⟨?_, ?_, ?_⟩
  · rw [stop_recording_tryWrite_true, result_toggle,
      stop_recording_run_fst, toggle_cleanup_toggle]
  · simp only [stop_recording_tryWrite]
    rw [if_pos hlen]
    simp
  · simp only [stop_recording_tryWrite]
    rw [if_pos hlen]
    simp [result_toggle]

/-- Witness for the amended C2 at the concrete captured-session state. -/
theorem stop_recording_cleanup_unless_write_raises_witness :
    result_toggle (stop_recording_tryWrite true ts0 exToggleOnBuf) = false ∧
    stop_recording_tryWrite false ts0 exToggleOnBuf =
      Except.error { exToggleOnBuf with
                     thread := stop_stream exToggleOnBuf.thread } ∧
    result_toggle (stop_recording_tryWrite false ts0 exToggleOnBuf) =
      exToggleOnBuf.toggle_recording_active :=
  stop_recording_cleanup_unless_write_raises exToggleOnBuf ts0 (by decide)

/-- C5 counterexample: after stopping the captured toggle session (write
succeeding), the accumulation buffer still holds the session's samples —
stop_recording hands the buffer to the writer but never clears it. -/
theorem stop_leaves_buffer_cex :
    Reachable 0 1 exToggleOnBuf ∧
    (stop_recording_run ts0 exToggleOnBuf).1.thread.recording = [1, 2] ∧
    (stop_recording_run ts0 exToggleOnBuf).1.thread.recording ≠ [] := by
  refine ⟨Reachable.step _ _ (Reachable.step _ _ Reachable.init),
    by decide, by decide⟩

/-- C5 amended: the accumulation buffer is reset at the start of every
record session (both hold and toggle starts), but stop_recording leaves the
buffer exactly as captured; the finished session's samples persist in it
until the next record start clears them. -/
theorem buffer_reset_at_start_persists_after_stop (s : CoreState)
    (hold : Bool) (ts : Timestamp)
    (h : hold = true ∨ s.toggle_recording_active = false) :
    (start_recording hold s).thread.recording = [] ∧
    (stop_recording_run ts s).1.thread.recording = s.thread.recording := by
  constructor
  · rcases h with h | h
    · subst h
      simp [start_recording, start_stream]
    · cases hold with
      | true => simp [start_recording, start_stream]
      | false => simp [start_recording, start_stream, h]
  · rw [stop_recording_run_fst, toggle_cleanup_thread]
    rfl

/-- Witness for the amended C5 at the concrete captured-session state. -/
theorem buffer_reset_at_start_persists_after_stop_witness :
    (start_recording true exToggleOnBuf).thread.recording = [] ∧
    (stop_recording_run ts0 exToggleOnBuf).1.thread.recording =
      exToggleOnBuf.thread.recording :=
  buffer_reset_at_start_persists_after_stop exToggleOnBuf true ts0
    (Or.inl rfl)

lemma toggle_recording_of_inactive (ts : Timestamp) (x : CoreState)
    (hx : x.toggle_recording_active = false) :
    toggle_recording ts x =
      (start_recording false x,
       (start_recording false x).toggle_recording_active) := by
  simp [toggle_recording, hx]

lemma toggle_recording_of_active (ts : Timestamp) (x : CoreState)
    (hx : x.toggle_recording_active = true) :
    toggle_recording ts x =
      ((stop_recording_run ts x).1,
       (stop_recording_run ts x).1.toggle_recording_active) := by
  simp [toggle_recording, hx]

/-- C1: from an idle controller (toggle flag false, no session active), one
toggle_recording call starts a record session and returns true; a second
call stops it and returns false; and at every state the boolean returned by
toggle_recording (also via the DBus ToggleRecording forwarder) is exactly
the Toggle State left behind. -/
theorem toggle_recording_idle_start_stop (s : CoreState)
    (ts1 ts2 : Timestamp) (h1 : s.toggle_recording_active = false)
    (h2 : s.thread.active = false) :
    (toggle_recording ts1 s).2 = true ∧
    (toggle_recording ts1 s).1.thread.active = true ∧
    (toggle_recording ts1 s).1.thread.mode = Mode.record ∧
    (toggle_recording ts2 (toggle_recording ts1 s).1).2 = false ∧
    (toggle_recording ts2 (toggle_recording ts1 s).1).1.thread.active =
      false ∧
    (∀ s' ts, (toggle_recording ts s').2 =
      (toggle_recording ts s').1.toggle_recording_active) ∧
    ToggleRecording ts1 s = toggle_recording ts1 s := by
  have hfst : toggle_recording ts1 s = (start_recording false s,
      (start_recording false s).toggle_recording_active) :=
    toggle_recording_of_inactive ts1 s h1
  have hstart : (start_recording false s).toggle_recording_active = true ∧
      (start_recording false s).thread.active = true ∧
      (start_recording false s).thread.mode = Mode.record := by
    simp [start_recording, h1, start_stream]
  have h1' : (toggle_recording ts1 s).1.toggle_recording_active = true := by
    rw [hfst]
    exact hstart.1
  have hsnd : toggle_recording ts2 (toggle_recording ts1 s).1 =
      ((stop_recording_run ts2 (toggle_recording ts1 s).1).1,
       (stop_recording_run ts2 (toggle_recording ts1 s).1).1.toggle_recording_active) :=
    toggle_recording_of_active ts2 _ h1'
  refine ⟨?_, ?_, ?_, ?_, ?_, ?_, rfl⟩
  · rw [hfst]
    exact hstart.1
  · rw [hfst]
    exact hstart.2.1
  · rw [hfst]
    exact hstart.2.2
  · rw [hsnd]
    simp [stop_recording_run_fst, toggle_cleanup_toggle]
  · rw [hsnd]
    simp [stop_recording_run_fst, toggle_cleanup_thread, stop_stream]
  · intro s' ts
    rfl

/-- Witness for C1 at the freshly launched controller. -/
theorem toggle_recording_idle_start_stop_witness :
    (toggle_recording ts0 exIdle).2 = true ∧
    (toggle_recording ts0 exIdle).1.thread.active = true ∧
    (toggle_recording ts0 exIdle).1.thread.mode = Mode.record ∧
    (toggle_recording ts0 (toggle_recording ts0 exIdle).1).2 = false ∧
    (toggle_recording ts0 (toggle_recording ts0 exIdle).1).1.thread.active =
      false ∧
    (∀ s' ts, (toggle_recording ts s').2 =
      (toggle_recording ts s').1.toggle_recording_active) ∧
    ToggleRecording ts0 exIdle = toggle_recording ts0 exIdle :=
  toggle_recording_idle_start_stop exIdle ts0 ts0 (by decide) (by decide)

/-- C10: every record-mode start (hold or toggle) leaves the output device
parameter unset, yet the worker still opens a full duplex stream whose
output endpoint resolves to the driver's default output device — recording
always holds an output endpoint even though nothing is written to it. -/
theorem record_start_opens_duplex_default_output (s : CoreState)
    (hold : Bool) (default_out : Nat)
    (h : hold = true ∨ s.toggle_recording_active = false) :
    (start_recording hold s).thread.output_device = none ∧
    opened_stream (start_recording hold s).thread default_out =
      { channels := 1, samplerate := 44100,
        input_endpoint := s.input_sel,
        output_endpoint := default_out } := by
  have hout : (start_recording hold s).thread.output_device = none ∧
      (start_recording hold s).thread.input_device = s.input_sel := by
    rcases h with h | h
    · subst h
      simp [start_recording, start_stream]
    · cases hold with
      | true => simp [start_recording, start_stream]
      | false => simp [start_recording, start_stream, h]
  refine ⟨hout.1, ?_⟩
  simp [opened_stream, resolve_output_device, hout.1, hout.2,
    SAMPLE_RATE, CHANNELS]

/-- Witness for C10: a toggle start from the fresh controller, with default
output device 7. -/
theorem record_start_opens_duplex_default_output_witness :
    (start_recording false exIdle).thread.output_device = none ∧
    opened_stream (start_recording false exIdle).thread 7 =
      { channels := 1, samplerate := 44100,
        input_endpoint := exIdle.input_sel, output_endpoint := 7 } :=
  record_start_opens_duplex_default_output exIdle false 7 (Or.inr (by decide))

/-- C3 counterexample: at the reachable state exToggleOn a toggle record
session is running, yet start_playback is not rejected: it rebinds the live
worker to playthrough mode, so the call is not treated as a caller
error/no-op by any controller state machine. -/
theorem start_while_running_not_noop_cex :
    Reachable 0 1 exToggleOn ∧
    exToggleOn.thread.active = true ∧
    exToggleOn.thread.mode = Mode.record ∧
    (start_playback exToggleOn).thread.mode = Mode.playthrough ∧
    start_playback exToggleOn ≠ exToggleOn := by
  refine ⟨Reachable.step _ _ Reachable.init, by decide, by decide,
    by decide, by decide⟩

/-- C3 amended: the controller guards only the toggle path — calling
start_recording in toggle mode while toggle-active is a no-op — while the
other start operations are not excluded while a session runs: start_playback
retargets the single live worker to playthrough, and a hold-mode
start_recording retargets it to record and clears the live buffer.  No
second worker exists only because the one worker object is reused in
place (its loop flag merely stays raised). -/
theorem start_exclusion_only_toggle_guard (s : CoreState) :
    (s.toggle_recording_active = true → start_recording false s = s) ∧
    (s.thread.active = true →
      (start_playback s).thread.active = true ∧
      (start_playback s).thread.mode = Mode.playthrough ∧
      (start_recording true s).thread.active = true ∧
      (start_recording true s).thread.mode = Mode.record ∧
      (start_recording true s).thread.recording = []) := by
  constructor
  · intro h
    simp [start_recording, h]
  · intro _
    refine ⟨rfl, rfl, ?_, ?_, ?_⟩ <;> simp [start_recording, start_stream]

/-- Witness for the amended C3 at the running toggle-session state. -/
theorem start_exclusion_only_toggle_guard_witness :
    start_recording false exToggleOn = exToggleOn ∧
    (start_playback exToggleOn).thread.mode = Mode.playthrough ∧
    (start_recording true exToggleOn).thread.recording = [] :=
  ⟨(start_exclusion_only_toggle_guard exToggleOn).1 (by decide),
   ((start_exclusion_only_toggle_guard exToggleOn).2 (by decide)).2.1,
   ((start_exclusion_only_toggle_guard exToggleOn).2 (by decide)).2.2.2.2⟩

lemma step_workerStep_record (b : List Sample) (s : CoreState)
    (ha : s.thread.active = true) (hm : s.thread.mode = Mode.record) :
    step s (Event.workerStep b false) =
      { s with thread :=
          { s.thread with recording := s.thread.recording ++ b } } := by
  simp [step, ha, thread_step, hm]

lemma foldl_workerStep_record (blks : List (List Sample)) (s : CoreState)
    (ha : s.thread.active = true) (hm : s.thread.mode = Mode.record) :
    blks.foldl (fun acc b => step acc (Event.workerStep b false)) s =
      { s with thread :=
          { s.thread with
            recording := s.thread.recording ++ blks.flatten } } := by
  induction blks generalizing s with
  | nil => simp
  | cons b bs ih =>
      rw [List.foldl_cons, step_workerStep_record b s ha hm,
        ih _ (by simpa using ha) (by simpa using hm)]
      simp [List.append_assoc]

/-- Concrete blocks read in two worker iterations. -/
def exBlocks : List (List Sample) := [[1], [2, 3]]

/-- C6: for a record session started from any state (hold or toggle path)
in which the worker reads blocks `blks` before stop, the artifact produced
by the stopping call is exactly the concatenation of those blocks in read
order, tagged 44100 Hz and one channel, at path
"data/recording_" ++ strftime("%Y%m%d_%H%M%S") ++ ".wav". -/
theorem record_artifact_is_block_concat (s : CoreState) (hold : Bool)
    (blks : List (List Sample)) (ts : Timestamp)
    (hg : hold = true ∨ s.toggle_recording_active = false)
    (hne : blks.flatten ≠ []) :
    (stop_recording_run ts
        (blks.foldl (fun acc b => step acc (Event.workerStep b false))
          (start_recording hold s))).2 =
      some (mk_artifact ts blks.flatten) ∧
    mk_artifact ts blks.flatten =
      { path := "data/recording_" ++ strftime_YmdHMS ts ++ ".wav",
        samples := blks.flatten, samplerate := 44100, channels := 1 } := by
  have hs1 : (start_recording hold s).thread.active = true ∧
      (start_recording hold s).thread.mode = Mode.record ∧
      (start_recording hold s).thread.recording = [] := by
    rcases hg with h | h
    · subst h
      simp [start_recording, start_stream]
    · cases hold with
      | true => simp [start_recording, start_stream]
      | false => simp [start_recording, start_stream, h]
  rw [foldl_workerStep_record blks _ hs1.1 hs1.2.1, hs1.2.2]
  refine ⟨?_, rfl⟩
  simp only [stop_recording_run, stop_stream, List.nil_append]
  rw [if_pos]
  exact List.length_pos.mpr hne

/-- Witness for C6: two blocks captured from the fresh controller via the
toggle path. -/
theorem record_artifact_is_block_concat_witness :
    (stop_recording_run ts0
        (exBlocks.foldl (fun acc b => step acc (Event.workerStep b false))
          (start_recording false exIdle))).2 =
      some (mk_artifact ts0 exBlocks.flatten) ∧
    mk_artifact ts0 exBlocks.flatten =
      { path := "data/recording_" ++ strftime_YmdHMS ts0 ++ ".wav",
        samples := exBlocks.flatten, samplerate := 44100, channels := 1 } :=
  record_artifact_is_block_concat exIdle false exBlocks ts0
    (Or.inr (by decide)) (by decide)

/-- Toggle session hijacked by a playback start: reachable because no
controller guard stops start_playback while recording. -/
def exHijacked : CoreState := step exToggleOn Event.startPlayback

/-- C4 counterexample: the state reached by toggleRecording then
startPlayback is reachable in the program, has Toggle State true, yet the
session now runs in playthrough mode and was last started by the playback
path — the claimed iff fails at a reachable state. -/
theorem toggle_state_invariant_cex :
    Reachable 0 1 exHijacked ∧ ¬ toggleInv exHijacked := by
  refine ⟨Reachable.step _ _ (Reachable.step _ _ Reachable.init), by decide⟩

/-- C4 amended: the invariant does hold on every state reachable under the
spec's state-machine discipline, where a start-type operation is only
invoked while no session is active (and toggle_recording only starts from
Idle): there, Toggle State is true exactly while a record-mode session
started via the toggle path is running. -/
theorem toggle_state_invariant_disciplined (inSel outSel : Nat)
    (s : CoreState) (h : DReachable inSel outSel s) : toggleInv s := by
  induction h with
  | init => simp [toggleInv, init]
  | startPlayback s hr ha ih =>
      unfold toggleInv at ih ⊢
      simp only [step, start_playback, start_stream] at *
      simp [ha] at ih
      simp [ih]
  | stopPlayback s hr hg ih =>
      unfold toggleInv at ih ⊢
      have htog : s.toggle_recording_active = false := by
        rcases hg with hg | hg
        · by_contra hc
          simp only [Bool.not_eq_false] at hc
          rcases (ih.mp hc) with ⟨_, hm, _⟩
          rw [hg] at hm
          exact Mode.noConfusion hm
        · simp [hg] at ih
          exact ih
      simp [step, stop_playback, stop_stream, htog]
  | startRecordingHold s hr ha ih =>
      unfold toggleInv at ih ⊢
      have htog : s.toggle_recording_active = false := by
        simp [ha] at ih
        exact ih
      simp [step, start_recording, start_stream, htog]
  | stopRecording s ts hr ih =>
      unfold toggleInv
      simp [step, stop_recording_run_fst, toggle_cleanup_toggle,
        toggle_cleanup_thread, stop_stream]
  | toggleRecording s ts hr hg ih =>
      unfold toggleInv at ih ⊢
      cases htog : s.toggle_recording_active with
      | true =>
          rw [show step s (Event.toggleRecording ts) =
              (stop_recording_run ts s).1 from by
            simp [step, toggle_recording, htog]]
          simp [stop_recording_run_fst, toggle_cleanup_toggle,
            toggle_cleanup_thread, stop_stream]
      | false =>
          have ha : s.thread.active = false := by
            rcases hg with hg | hg
            · rw [htog] at hg
              exact Bool.noConfusion hg
            · exact hg
          rw [show step s (Event.toggleRecording ts) =
              start_recording false s from by
            simp [step, toggle_recording, htog]]
          simp [start_recording, start_stream, htog]
  | workerStep s blk ov hr ih =>
      unfold toggleInv at ih ⊢
      rw [step_workerStep_toggle, step_workerStep_via]
      have hact : (step s (Event.workerStep blk ov)).thread.active =
          s.thread.active := by
        simp only [step]
        split <;> simp [thread_step_active]
      have hmode : (step s (Event.workerStep blk ov)).thread.mode =
          s.thread.mode := by
        simp only [step]
        split <;> simp [thread_step_mode]
      rw [hact, hmode]
      exact ih

/-- Witness for the amended C4 at a disciplined-reachable state with the
toggle session running. -/
theorem toggle_state_invariant_disciplined_witness :
    toggleInv exToggleOn :=
  toggle_state_invariant_disciplined 0 1 exToggleOn
    (DReachable.toggleRecording _ _ DReachable.init (Or.inr rfl))
